import Mathlib

/-!
Verification of the station-map plotting scripts (`stn_plot.py` and
`generate_cpt_previews.py`).

The Python code is shallowly embedded: coordinates become rationals (`ℚ`),
station records become structures, the region list `[lon_min, lon_max,
lat_min, lat_max]` becomes `List ℚ`, and the effectful parts (subprocess
calls for terrain download, the on-disk cache, exit codes of `main`) become
explicit state passing over small environment structures that record the
outcome of each external step.
-/

/-- Station record as built by `parse_dataless` / `generate_cpt_preview`:
network code, station code, latitude, longitude, elevation. -/
structure Station where
  network : String
  station : String
  latitude : ℚ
  longitude : ℚ
  elevation : ℚ

/-- Source station object exposed by the metadata library: elevation may be
absent (`None` in Python), which is modelled by `Option`. -/
structure SrcStation where
  code : String
  latitude : ℚ
  longitude : ℚ
  elevation : Option ℚ

/-- Source network object exposed by the metadata library. -/
structure SrcNetwork where
  code : String
  stations : List SrcStation

/-- One station record, translated from the loop body
`station_info = {'network': network.code, ..., 'elevation':
station.elevation if station.elevation else 0}`.  Python truthiness makes
both `None` and `0` fall back to `0`. -/
def station_info (networkCode : String) (s : SrcStation) : Station :=
  { network := networkCode
    station := s.code
    latitude := s.latitude
    longitude := s.longitude
    elevation := match s.elevation with
      | none => 0
      | some v => if v = 0 then 0 else v }

/-- The station list built by `parse_dataless` from an inventory: one record
per station of each network, in order. -/
def parse_dataless_stations (inv : List SrcNetwork) : List Station :=
  (inv.map (fun n => n.stations.map (station_info n.code))).flatten

/-- Python `min` over a non-empty list (`0` on the empty list, on which the
Python code never calls it). -/
def listMin : List ℚ → ℚ
  | [] => 0
  | x :: xs => xs.foldl min x

/-- Python `max` over a non-empty list (`0` on the empty list, on which the
Python code never calls it). -/
def listMax : List ℚ → ℚ
  | [] => 0
  | x :: xs => xs.foldl max x

/-- The automatic padding of `calculate_region`, translated from
`max(0.05, min(0.5, max(lon_range, lat_range) * 0.15))`. -/
def autoPadding (stations : List Station) : ℚ :=
  let lons := stations.map Station.longitude
  let lats := stations.map Station.latitude
  let lon_range := listMax lons - listMin lons
  let lat_range := listMax lats - listMin lats
  max 0.05 (min 0.5 (max lon_range lat_range * 0.15))

/-- `TempStylePlotter.calculate_region`: `none` models the `ValueError`
raised on an empty station list; otherwise the region
`[lon_min, lon_max, lat_min, lat_max]` is returned.  The `min_range`
parameter is accepted (default `2.0` at the CLI) but never read by the
body. -/
def calculate_region (stations : List Station) (padding : Option ℚ)
    (min_range : ℚ) : Option (List ℚ) :=
  match stations with
  | [] => none
  | _ :: _ =>
    let lons := stations.map Station.longitude
    let lats := stations.map Station.latitude
    let p := padding.getD (autoPadding stations)
    some [listMin lons - p, listMax lons + p, listMin lats - p, listMax lats + p]

/-- Region computation of `generate_cpt_preview`: fixed `padding = 0.5`. -/
def cpt_preview_region (stations : List Station) : List ℚ :=
  let lons := stations.map Station.longitude
  let lats := stations.map Station.latitude
  let padding : ℚ := 0.5
  [listMin lons - padding, listMax lons + padding,
   listMin lats - padding, listMax lats + padding]

/-- The fixed candidate list `standard_intervals` of `calculate_interval`. -/
def standardIntervals : List ℚ := [0.05, 0.1, 0.2, 0.25, 0.5, 1.0, 2.0, 5.0]

/-- The `for ... if interval <= target ... else break` loop of
`calculate_interval`, with the running `best_interval` as accumulator. -/
def bestLoop (target : ℚ) : ℚ → List ℚ → ℚ
  | best, [] => best
  | best, i :: rest => if i ≤ target then bestLoop target i rest else best

/-- `calculate_interval` from `create_temp_map`: the initial best interval is
`standard_intervals[0] = 0.05` and the target is `range_deg / 3`. -/
def calculate_interval (range_deg : ℚ) : ℚ :=
  bestLoop (range_deg / 3.0) 0.05 standardIntervals

/-- Python `str.split('/')`, modelled structurally on the character list of
the string: splitting on every slash, keeping empty fields. -/
def splitOnSlash : List Char → List (List Char)
  | [] => [[]]
  | c :: rest =>
    if c = '/' then [] :: splitOnSlash rest
    else
      match splitOnSlash rest with
      | [] => [[c]]
      | t :: ts => (c :: t) :: ts

/-- The validation cascade of `set_manual_region`, in source order:
ordering of longitudes, ordering of latitudes, latitude range, longitude
range. -/
def region_checks (lon_min lon_max lat_min lat_max : ℚ) : Option (List ℚ) :=
  if lon_min ≥ lon_max then none
  else if lat_min ≥ lat_max then none
  else if lat_min < -90 ∨ lat_max > 90 then none
  else if lon_min < -180 ∨ lon_max > 180 then none
  else some [lon_min, lon_max, lat_min, lat_max]

/-- `TempStylePlotter.set_manual_region`.  The numeric parser (Python
`float`) is abstracted as `parse`; `none` models every path that reaches
`sys.exit(1)` (wrong field count, unparseable field, ordering violation,
out-of-range bound), and `some region` models a successful assignment of
`self.region`. -/
def set_manual_region (parse : List Char → Option ℚ)
    (region_str : List Char) : Option (List ℚ) :=
  match splitOnSlash region_str with
  | [p0, p1, p2, p3] =>
    match parse p0, parse p1, parse p2, parse p3 with
    | some lon_min, some lon_max, some lat_min, some lat_max =>
      region_checks lon_min lon_max lat_min lat_max
    | _, _, _, _ => none
  | _ => none

/-- Round half to even, as Python's fixed-point formatting does on the
value to be printed. -/
def rhe (q : ℚ) : ℤ :=
  let f := ⌊q⌋
  if q - f < 1/2 then f
  else if 1/2 < q - f then f + 1
  else if f % 2 = 0 then f else f + 1

/-- Python `f"{q:.1f}"`: one decimal digit, sign taken from the input value
(so a negative value that rounds to zero prints as `-0.0`). -/
def fixed1 (q : ℚ) : String :=
  let n := rhe (10 * q)
  (if q < 0 then "-" else "") ++ toString (n.natAbs / 10) ++ "." ++ toString (n.natAbs % 10)

/-- The value of a coordinate rounded to one decimal place. -/
def round1 (q : ℚ) : ℚ := (rhe (10 * q) : ℚ) / 10

/-- `resolution_map.get(resolution, '30s')` from `create_temp_map`. -/
def gmt_res (resolution : String) : String :=
  if resolution = "01m" ∨ resolution = "30s" ∨ resolution = "15s" ∨
     resolution = "03s" ∨ resolution = "01s" then resolution else "30s"

/-- The terrain cache file name, translated from
`f"relief_{gmt_res}_{lon_min:.1f}_{lon_max:.1f}_{lat_min:.1f}_{lat_max:.1f}.grd"`. -/
def cache_name (res : String) (lon_min lon_max lat_min lat_max : ℚ) : String :=
  "relief_" ++ res ++ "_" ++ fixed1 lon_min ++ "_" ++ fixed1 lon_max ++ "_" ++
    fixed1 lat_min ++ "_" ++ fixed1 lat_max ++ ".grd"

/-- A `gmt` subprocess launched by the terrain-acquisition block of
`create_temp_map`. -/
inductive GmtCmd where
  | grdcutGrd
  | grdcutNc
  | grdconvert
deriving DecidableEq

/-- Outcomes of the external download/convert subprocesses: whether each
would succeed if run (return code 0 and output file present). -/
structure DownloadEnv where
  grdOk : Bool
  ncOk : Bool
  convertOk : Bool

/-- Result of the terrain-acquisition block: the subprocesses launched in
order, whether a usable grd file was obtained (`sys.exit(1)` otherwise),
the cache contents afterwards, and whether the intermediate nc file was
removed. -/
structure FetchResult where
  cmds : List GmtCmd
  ok : Bool
  cache : List String
  ncRemoved : Bool
deriving DecidableEq

/-- The terrain-acquisition block of `create_temp_map` (cache lookup, grd
download, single nc fallback plus conversion), with the cache directory
modelled as the list of file names present. -/
def fetch_terrain (env : DownloadEnv) (cache : List String) (name : String) :
    FetchResult :=
  if name ∈ cache then ⟨[], true, cache, false⟩
  else if env.grdOk then ⟨[.grdcutGrd], true, name :: cache, false⟩
  else if env.ncOk then
    if env.convertOk then ⟨[.grdcutGrd, .grdcutNc, .grdconvert], true, name :: cache, true⟩
    else ⟨[.grdcutGrd, .grdcutNc, .grdconvert], false, cache, false⟩
  else ⟨[.grdcutGrd, .grdcutNc], false, cache, false⟩

/-- Environment of one `stn_plot.py` invocation: outcome of metadata
parsing, the optional `--region` string, station list, optional
`--padding`, `--min-range`, `--resolution`, download outcomes, initial
cache contents, and whether rendering raises. -/
structure StnEnv where
  parseOk : Bool
  stations : List Station
  regionArg : Option (List Char)
  paddingArg : Option ℚ
  minRange : ℚ
  resolution : String
  download : DownloadEnv
  cache : List String
  renderOk : Bool

/-- Exit code of `stn_plot.py`'s `main`: every failure path calls
`sys.exit(1)`, and falling through the end of `main` exits 0. -/
def stn_main (parse : List Char → Option ℚ) (e : StnEnv) : Nat :=
  if e.parseOk = false then 1
  else
    let regionOpt : Option (List ℚ) :=
      match e.regionArg with
      | some s => set_manual_region parse s
      | none => calculate_region e.stations e.paddingArg e.minRange
    match regionOpt with
    | none => 1
    | some reg =>
      let nm := match reg with
        | [a, b, c, d] => cache_name (gmt_res e.resolution) a b c d
        | _ => ""
      if (fetch_terrain e.download e.cache nm).ok = false then 1
      else if e.renderOk = false then 1
      else 0

/-- Environment of one `generate_cpt_previews.py` invocation: existence of
the cpt directory and the dataless file, and the success of
`generate_cpt_preview` for each cpt file found (empty list: no cpt
files). -/
structure GcpEnv where
  cptDirExists : Bool
  datalessExists : Bool
  previews : List Bool

/-- Exit code of `generate_cpt_previews.py`'s `main`: it exits 1 only when
the cpt directory, the dataless file, or any cpt file is missing; after
the generation loop it prints a summary and returns normally (exit 0)
whatever `success_count` is. -/
def gcp_main (e : GcpEnv) : Nat :=
  if e.cptDirExists = false then 1
  else if e.datalessExists = false then 1
  else if e.previews.isEmpty then 1
  else 0

/-! ### Helper lemmas about `listMin` / `listMax` -/

theorem foldl_min_le_init (l : List ℚ) : ∀ a : ℚ, l.foldl min a ≤ a := by
  induction l with
  | nil => intro a; exact le_refl a
  | cons x xs ih =>
    intro a
    exact le_trans (ih (min a x)) (min_le_left a x)

theorem foldl_min_le_of_mem (l : List ℚ) :
    ∀ (a x : ℚ), x ∈ l → l.foldl min a ≤ x := by
  induction l with
  | nil => intro a x hx; cases hx
  | cons y ys ih =>
    intro a x hx
    rcases List.mem_cons.mp hx with h | h
    · subst h
      exact le_trans (foldl_min_le_init ys (min a x)) (min_le_right a x)
    · exact ih (min a y) x h

theorem listMin_le_of_mem {x : ℚ} {l : List ℚ} (h : x ∈ l) : listMin l ≤ x := by
  cases l with
  | nil => cases h
  | cons y ys =>
    rcases List.mem_cons.mp h with h' | h'
    · subst h'; exact foldl_min_le_init ys x
    · exact foldl_min_le_of_mem ys y x h'

theorem init_le_foldl_max (l : List ℚ) : ∀ a : ℚ, a ≤ l.foldl max a := by
  induction l with
  | nil => intro a; exact le_refl a
  | cons x xs ih =>
    intro a
    exact le_trans (le_max_left a x) (ih (max a x))

theorem mem_le_foldl_max (l : List ℚ) :
    ∀ (a x : ℚ), x ∈ l → x ≤ l.foldl max a := by
  induction l with
  | nil => intro a x hx; cases hx
  | cons y ys ih =>
    intro a x hx
    rcases List.mem_cons.mp hx with h | h
    · subst h
      exact le_trans (le_max_right a x) (init_le_foldl_max ys (max a x))
    · exact ih (max a y) x h

theorem le_listMax_of_mem {x : ℚ} {l : List ℚ} (h : x ∈ l) : x ≤ listMax l := by
  cases l with
  | nil => cases h
  | cons y ys =>
    rcases List.mem_cons.mp h with h' | h'
    · subst h'; exact init_le_foldl_max ys x
    · exact mem_le_foldl_max ys y x h'

theorem autoPadding_mem_Icc (stations : List Station) :
    0.05 ≤ autoPadding stations ∧ autoPadding stations ≤ 0.5 := by
  constructor
  · exact le_max_left _ _
  · refine max_le (by norm_num) ?_
    exact min_le_left _ _

/-! ### C10 -/

/-- C10: `calculate_region` returns the same region for any two values of
the `min_range` parameter; the command-line minimum-range override has no
effect on the computed region. -/
theorem calculate_region_ignores_min_range
    (stations : List Station) (padding : Option ℚ) (mr mr' : ℚ)
    (h : stations ≠ []) :
    calculate_region stations padding mr = calculate_region stations padding mr' := rfl

theorem calculate_region_ignores_min_range_witness :
    calculate_region [⟨"BJ", "AAA", 40, 116, 0⟩] (some 1) 2 =
      calculate_region [⟨"BJ", "AAA", 40, 116, 0⟩] (some 1) 100 :=
  calculate_region_ignores_min_range _ (some 1) 2 100 (by simp)

/-! ### C5 -/

/-- C5: for the two stations at (lat 40.0, lon 116.0) and (lat 40.2,
lon 116.3) and padding 0.5, both region computations (the preview script's
fixed padding and `calculate_region` with padding 0.5 supplied) give
`[115.5, 116.8, 39.5, 40.7]`. -/
theorem example_region_value :
    cpt_preview_region
        [⟨"BJ", "AAA", 40.0, 116.0, 0⟩, ⟨"BJ", "BBB", 40.2, 116.3, 0⟩] =
      [115.5, 116.8, 39.5, 40.7] ∧
    calculate_region
        [⟨"BJ", "AAA", 40.0, 116.0, 0⟩, ⟨"BJ", "BBB", 40.2, 116.3, 0⟩]
        (some 0.5) 2 =
      some [115.5, 116.8, 39.5, 40.7] := by
  constructor
  · simp only [cpt_preview_region, listMin, listMax, List.map, List.foldl]
    norm_num [min_def, max_def]
  · simp only [calculate_region, listMin, listMax, List.map, List.foldl, Option.getD]
    norm_num [min_def, max_def]

/-! ### C3 -/

/-- C3: with no user padding, the padding used by `calculate_region` is
`max(0.05, min(0.5, max(lon_range, lat_range) * 0.15))`, it always lies in
the closed interval `[0.05, 0.5]`, and `calculate_region` with no padding
argument computes the same region as with that automatic padding supplied
explicitly. -/
theorem auto_padding_spec (stations : List Station) (h : stations ≠ []) :
    autoPadding stations =
      max 0.05 (min 0.5
        (max (listMax (stations.map Station.longitude) - listMin (stations.map Station.longitude))
             (listMax (stations.map Station.latitude) - listMin (stations.map Station.latitude))
          * 0.15)) ∧
    0.05 ≤ autoPadding stations ∧ autoPadding stations ≤ 0.5 ∧
    ∀ mr, calculate_region stations none mr =
        calculate_region stations (some (autoPadding stations)) mr := by
  refine ⟨rfl, (autoPadding_mem_Icc stations).1, (autoPadding_mem_Icc stations).2, ?_⟩
  intro mr
  cases stations with
  | nil => cases h rfl
  | cons s rest => simp [calculate_region]

theorem auto_padding_spec_witness :
    0.05 ≤ autoPadding [⟨"BJ", "AAA", 40, 116, 0⟩] ∧
    autoPadding [⟨"BJ", "AAA", 40, 116, 0⟩] ≤ 0.5 :=
  ⟨(auto_padding_spec [⟨"BJ", "AAA", 40, 116, 0⟩] (by simp)).2.1,
   (auto_padding_spec [⟨"BJ", "AAA", 40, 116, 0⟩] (by simp)).2.2.1⟩

/-! ### C1 -/

/-- C1 counterexample: with the user-supplied padding `0` (accepted by the
CLI, `--padding 0`), a single station at (lat 0, lon 0) yields the region
`[0, 0, 0, 0]`, and the station's longitude `0` is not strictly greater
than `lon_min = 0`; so strict containment fails for some padding value
used by `calculate_region`. -/
theorem calculate_region_zero_padding_cex :
    calculate_region [⟨"BJ", "AAA", 0, 0, 0⟩] (some 0) 2 = some [0, 0, 0, 0] ∧
    ¬ ((0 : ℚ) < (Station.longitude ⟨"BJ", "AAA", 0, 0, 0⟩)) := by
  constructor
  · simp [calculate_region, listMin, listMax]
  · exact lt_irrefl 0

/-- C1 amended: whenever the padding value used is positive — which is
always the case for the auto-computed padding, and holds for a
user-supplied padding exactly when it is positive — the computed region
contains every station's coordinates strictly within its bounds. -/
theorem calculate_region_strict_containment
    (stations : List Station) (padding : Option ℚ) (mr : ℚ) (reg : List ℚ)
    (hne : stations ≠ [])
    (hpos : ∀ p, padding = some p → 0 < p)
    (hreg : calculate_region stations padding mr = some reg) :
    ∃ a b c d, reg = [a, b, c, d] ∧
      ∀ st ∈ stations,
        a < st.longitude ∧ st.longitude < b ∧ c < st.latitude ∧ st.latitude < d := by
  cases stations with
  | nil => cases hne rfl
  | cons s rest =>
    have hp : 0 < (padding.getD (autoPadding (s :: rest))) := by
      cases padding with
      | none =>
        have := (autoPadding_mem_Icc (s :: rest)).1
        simp only [Option.getD]
        linarith
      | some p => simpa using hpos p rfl
    simp only [calculate_region, Option.some.injEq] at hreg
    refine ⟨_, _, _, _, hreg.symm, ?_⟩
    intro st hst
    have hlon : st.longitude ∈ (s :: rest).map Station.longitude :=
      List.mem_map_of_mem Station.longitude hst
    have hlat : st.latitude ∈ (s :: rest).map Station.latitude :=
      List.mem_map_of_mem Station.latitude hst
    have h1 := listMin_le_of_mem hlon
    have h2 := le_listMax_of_mem hlon
    have h3 := listMin_le_of_mem hlat
    have h4 := le_listMax_of_mem hlat
    refine ⟨by linarith, by linarith, by linarith, by linarith⟩

theorem calculate_region_strict_containment_witness :
    ([⟨"BJ", "AAA", 40, 116, 0⟩] : List Station) ≠ [] ∧
    (∀ p : ℚ, (some (1/2) : Option ℚ) = some p → 0 < p) ∧
    calculate_region [⟨"BJ", "AAA", 40, 116, 0⟩] (some (1/2)) 2 =
      some [231/2, 233/2, 79/2, 81/2] ∧
    ∃ a b c d, ([231/2, 233/2, 79/2, 81/2] : List ℚ) = [a, b, c, d] ∧
      ∀ st ∈ ([⟨"BJ", "AAA", 40, 116, 0⟩] : List Station),
        a < st.longitude ∧ st.longitude < b ∧ c < st.latitude ∧ st.latitude < d := by
  refine ⟨by simp, ?_, ?_, ?_⟩
  · intro p hp
    have : p = 1/2 := by simpa using hp.symm
    rw [this]; norm_num
  · simp [calculate_region, listMin, listMax]
    norm_num
  · refine calculate_region_strict_containment
      [⟨"BJ", "AAA", 40, 116, 0⟩] (some (1/2)) 2 [231/2, 233/2, 79/2, 81/2]
      (by simp) ?_ ?_
    · intro p hp
      have hp2 : p = 1/2 := by simpa using hp.symm
      rw [hp2]; norm_num
    · simp [calculate_region, listMin, listMax]; norm_num

/-! ### C9 -/

/-- C9: every station record built by the parsing loop keeps the network
code, station code, latitude and longitude unchanged, stores the source
elevation when it is present and non-zero, and stores `0` when it is
absent; and the record is part of the parsed station list. -/
theorem station_record_spec
    (inv : List SrcNetwork) (n : SrcNetwork) (hn : n ∈ inv)
    (s : SrcStation) (hs : s ∈ n.stations) :
    station_info n.code s ∈ parse_dataless_stations inv ∧
    (station_info n.code s).network = n.code ∧
    (station_info n.code s).station = s.code ∧
    (station_info n.code s).latitude = s.latitude ∧
    (station_info n.code s).longitude = s.longitude ∧
    (∀ v, s.elevation = some v → v ≠ 0 → (station_info n.code s).elevation = v) ∧
    (s.elevation = none → (station_info n.code s).elevation = 0) := by
  refine ⟨?_, rfl, rfl, rfl, rfl, ?_, ?_⟩
  · unfold parse_dataless_stations
    refine List.mem_flatten.mpr ⟨n.stations.map (station_info n.code), ?_, ?_⟩
    · exact List.mem_map_of_mem _ hn
    · exact List.mem_map_of_mem _ hs
  · intro v hv hvne
    simp [station_info, hv, hvne]
  · intro h0
    simp [station_info, h0]

/-! ### Helper lemmas about `bestLoop` -/

theorem bestLoop_le_target (t : ℚ) :
    ∀ (l : List ℚ) (b : ℚ), b ≤ t → bestLoop t b l ≤ t := by
  intro l
  induction l with
  | nil => intro b hb; exact hb
  | cons i rest ih =>
    intro b hb
    rw [bestLoop]
    by_cases hi : i ≤ t
    · rw [if_pos hi]; exact ih i hi
    · rw [if_neg hi]; exact hb

theorem bestLoop_eq_or_mem (t : ℚ) :
    ∀ (l : List ℚ) (b : ℚ), bestLoop t b l = b ∨ bestLoop t b l ∈ l := by
  intro l
  induction l with
  | nil => intro b; exact Or.inl rfl
  | cons i rest ih =>
    intro b
    rw [bestLoop]
    by_cases hi : i ≤ t
    · rw [if_pos hi]
      rcases ih i with h | h
      · refine Or.inr ?_
        rw [h]
        exact List.mem_cons_self i rest
      · exact Or.inr (List.mem_cons_of_mem i h)
    · rw [if_neg hi]; exact Or.inl rfl

theorem chain_le_all {x : ℚ} :
    ∀ {l : List ℚ} {b : ℚ}, List.Chain (· ≤ ·) b l → x ∈ l → b ≤ x := by
  intro l
  induction l with
  | nil => intro b _ hx; cases hx
  | cons i rest ih =>
    intro b hch hx
    rcases List.chain_cons.mp hch with ⟨hbi, hrest⟩
    rcases List.mem_cons.mp hx with h | h
    · subst h; exact hbi
    · exact le_trans hbi (ih hrest h)

theorem bestLoop_ge_init (t : ℚ) :
    ∀ (l : List ℚ) (b : ℚ), List.Chain (· ≤ ·) b l → b ≤ bestLoop t b l := by
  intro l
  induction l with
  | nil => intro b _; exact le_refl b
  | cons i rest ih =>
    intro b hch
    rcases List.chain_cons.mp hch with ⟨hbi, hrest⟩
    rw [bestLoop]
    by_cases hi : i ≤ t
    · rw [if_pos hi]; exact le_trans hbi (ih i hrest)
    · rw [if_neg hi]

theorem bestLoop_ge_mem (t : ℚ) :
    ∀ (l : List ℚ) (b x : ℚ), List.Chain (· ≤ ·) b l → x ∈ l → x ≤ t →
      x ≤ bestLoop t b l := by
  intro l
  induction l with
  | nil => intro b x _ hx; cases hx
  | cons i rest ih =>
    intro b x hch hx hxt
    rcases List.chain_cons.mp hch with ⟨hbi, hrest⟩
    rw [bestLoop]
    by_cases hi : i ≤ t
    · rw [if_pos hi]
      rcases List.mem_cons.mp hx with h | h
      · subst h; exact bestLoop_ge_init t rest x hrest
      · exact ih i x hrest h hxt
    · rw [if_neg hi]
      rcases List.mem_cons.mp hx with h | h
      · subst h; exact absurd hxt hi
      · exact absurd (le_trans (chain_le_all hrest h) hxt) hi

theorem standardIntervals_chain : List.Chain (· ≤ ·) 0.05 standardIntervals := by
  simp only [standardIntervals, List.chain_cons, List.Chain.nil, and_true]
  norm_num

/-! ### C2 -/

/-- C2: for a non-negative axis span, `calculate_interval` returns `0.05`
when `span / 3` is below every candidate, and otherwise returns the
largest element of `standard_intervals` that is at most `span / 3`. -/
theorem calculate_interval_spec (span : ℚ) (hspan : 0 ≤ span) :
    (span / 3 < 0.05 → calculate_interval span = 0.05) ∧
    (0.05 ≤ span / 3 →
      calculate_interval span ∈ standardIntervals ∧
      calculate_interval span ≤ span / 3 ∧
      ∀ x ∈ standardIntervals, x ≤ span / 3 → x ≤ calculate_interval span) := by
  have hunfold : calculate_interval span = bestLoop (span / 3) 0.05 standardIntervals := by
    rw [calculate_interval]
    norm_num
  constructor
  · intro hlt
    rw [hunfold, standardIntervals, bestLoop, if_neg (not_le.mpr hlt)]
  · intro hge
    refine ⟨?_, ?_, ?_⟩
    · rw [hunfold]
      rcases bestLoop_eq_or_mem (span / 3) standardIntervals 0.05 with h | h
      · rw [h, standardIntervals]; exact List.mem_cons_self _ _
      · exact h
    · rw [hunfold]
      exact bestLoop_le_target (span / 3) standardIntervals 0.05 hge
    · intro x hx hxle
      rw [hunfold]
      exact bestLoop_ge_mem (span / 3) standardIntervals 0.05 x
        standardIntervals_chain hx hxle

theorem calculate_interval_spec_witness :
    calculate_interval 3 ∈ standardIntervals ∧ calculate_interval 3 ≤ 3 / 3 :=
  ⟨((calculate_interval_spec 3 (by norm_num)).2 (by norm_num)).1,
   ((calculate_interval_spec 3 (by norm_num)).2 (by norm_num)).2.1⟩

/-! ### Helper lemmas about `region_checks` -/

theorem region_checks_order_none {a b c d : ℚ} (h : b ≤ a ∨ d ≤ c) :
    region_checks a b c d = none := by
  unfold region_checks
  split_ifs with h1 h2 h3 h4 <;> try rfl
  rcases h with h | h
  · exact absurd h h1
  · exact absurd h h2

theorem region_checks_lat_none {a b c d : ℚ}
    (h : c < -90 ∨ 90 < c ∨ d < -90 ∨ 90 < d) :
    region_checks a b c d = none := by
  unfold region_checks
  split_ifs with h1 h2 h3 h4 <;> try rfl
  push_neg at h1 h2 h3
  rcases h with h | h | h | h
  · exact absurd h (not_lt.mpr h3.1.le).elim
  · linarith [h3.2]
  · linarith [h3.1]
  · linarith [h3.2]

theorem region_checks_lon_none {a b c d : ℚ}
    (h : a < -180 ∨ 180 < a ∨ b < -180 ∨ 180 < b) :
    region_checks a b c d = none := by
  unfold region_checks
  split_ifs with h1 h2 h3 h4 <;> try rfl
  push_neg at h1 h2 h3 h4
  rcases h with h | h | h | h
  · linarith [h4.1]
  · linarith [h4.2]
  · linarith [h4.1]
  · linarith [h4.2]

theorem region_checks_ok {a b c d : ℚ}
    (hab : a < b) (hcd : c < d) (hc : -90 ≤ c) (hd : d ≤ 90)
    (ha : -180 ≤ a) (hb : b ≤ 180) :
    region_checks a b c d = some [a, b, c, d] := by
  unfold region_checks
  split_ifs with h1 h2 h3 h4
  · exact absurd h1 (not_le.mpr hab)
  · exact absurd h2 (not_le.mpr hcd)
  · rcases h3 with h | h <;> linarith
  · rcases h4 with h | h <;> linarith
  · rfl

/-! ### C4 -/

/-- C4: `set_manual_region` rejects any input whose slash-split does not
have exactly four fields, any input with an unparseable field, any region
with `lon_min ≥ lon_max` or `lat_min ≥ lat_max`, any latitude bound
outside `[-90, 90]`, and any longitude bound outside `[-180, 180]`; every
input passing all checks sets the region to the four parsed numbers in
order. -/
theorem set_manual_region_spec (parse : List Char → Option ℚ) (s : List Char) :
    ((splitOnSlash s).length ≠ 4 → set_manual_region parse s = none) ∧
    (∀ p0 p1 p2 p3, splitOnSlash s = [p0, p1, p2, p3] →
      ((parse p0 = none ∨ parse p1 = none ∨ parse p2 = none ∨ parse p3 = none) →
        set_manual_region parse s = none) ∧
      (∀ a b c d, parse p0 = some a → parse p1 = some b → parse p2 = some c →
        parse p3 = some d →
        ((b ≤ a ∨ d ≤ c) → set_manual_region parse s = none) ∧
        ((c < -90 ∨ 90 < c ∨ d < -90 ∨ 90 < d) → set_manual_region parse s = none) ∧
        ((a < -180 ∨ 180 < a ∨ b < -180 ∨ 180 < b) → set_manual_region parse s = none) ∧
        (a < b → c < d → -90 ≤ c → d ≤ 90 → -180 ≤ a → b ≤ 180 →
          set_manual_region parse s = some [a, b, c, d]))) := by
  constructor
  · intro hlen
    rcases hsp : splitOnSlash s with _ | ⟨x0, _ | ⟨x1, _ | ⟨x2, _ | ⟨x3, _ | ⟨x4, rest⟩⟩⟩⟩⟩
    · simp [set_manual_region, hsp]
    · simp [set_manual_region, hsp]
    · simp [set_manual_region, hsp]
    · simp [set_manual_region, hsp]
    · exact absurd (by rw [hsp]; rfl) hlen
    · simp [set_manual_region, hsp]
  · intro p0 p1 p2 p3 hsp
    constructor
    · intro hnone
      rcases hp0 : parse p0 with _ | a <;>
        rcases hp1 : parse p1 with _ | b <;>
          rcases hp2 : parse p2 with _ | c <;>
            rcases hp3 : parse p3 with _ | d <;>
              simp_all [set_manual_region]
    · intro a b c d hp0 hp1 hp2 hp3
      have hm : set_manual_region parse s = region_checks a b c d := by
        simp only [set_manual_region, hsp, hp0, hp1, hp2, hp3]
      refine ⟨?_, ?_, ?_, ?_⟩
      · intro h; rw [hm]; exact region_checks_order_none h
      · intro h; rw [hm]; exact region_checks_lat_none h
      · intro h; rw [hm]; exact region_checks_lon_none h
      · intro h1 h2 h3 h4 h5 h6
        rw [hm]
        exact region_checks_ok h1 h2 h3 h4 h5 h6

theorem set_manual_region_spec_witness :
    set_manual_region
        (fun cs => match cs with | ['1'] => some 1 | ['2'] => some 2 | _ => none)
        ['1', '/', '2', '/', '1', '/', '2'] = some [1, 2, 1, 2] := by
  have h := set_manual_region_spec
    (fun cs => match cs with | ['1'] => some 1 | ['2'] => some 2 | _ => none)
    ['1', '/', '2', '/', '1', '/', '2']
  have hsp : splitOnSlash ['1', '/', '2', '/', '1', '/', '2'] =
      [['1'], ['2'], ['1'], ['2']] := by decide
  have h2 := (h.2 ['1'] ['2'] ['1'] ['2'] hsp).2 1 2 1 2 rfl rfl rfl rfl
  exact h2.2.2.2 (by norm_num) (by norm_num) (by norm_num) (by norm_num)
    (by norm_num) (by norm_num)

/-! ### Helper lemmas about `rhe`, `fixed1` and `cache_name` -/

theorem rhe_intCast (n : ℤ) : rhe ((n : ℤ) : ℚ) = n := by
  simp only [rhe, Int.floor_intCast, sub_self]
  norm_num

theorem fixed1_of_int {q : ℚ} (n : ℤ) (h : 10 * q = (n : ℚ)) (hq : ¬ q < 0) :
    fixed1 q = "" ++ toString (n.natAbs / 10) ++ "." ++ toString (n.natAbs % 10) := by
  simp only [fixed1, h, rhe_intCast, if_neg hq]

theorem fixed1_115_5 : fixed1 115.5 = "115.5" := by
  rw [fixed1_of_int 1155 (by norm_num) (by norm_num)]
  decide

theorem fixed1_116_8 : fixed1 116.8 = "116.8" := by
  rw [fixed1_of_int 1168 (by norm_num) (by norm_num)]
  decide

theorem fixed1_39_5 : fixed1 39.5 = "39.5" := by
  rw [fixed1_of_int 395 (by norm_num) (by norm_num)]
  decide

theorem fixed1_40_7 : fixed1 40.7 = "40.7" := by
  rw [fixed1_of_int 407 (by norm_num) (by norm_num)]
  decide

theorem rhe_neg_hundredth : rhe (10 * ((-1 : ℚ)/100)) = 0 := by
  have hq : 10 * ((-1 : ℚ)/100) = -1/10 := by norm_num
  have hf : ⌊(-1/10 : ℚ)⌋ = -1 := by norm_num [Int.floor_eq_iff]
  rw [hq]
  simp only [rhe, hf]
  norm_num

theorem rhe_pos_hundredth : rhe (10 * ((1 : ℚ)/100)) = 0 := by
  have hq : 10 * ((1 : ℚ)/100) = 1/10 := by norm_num
  have hf : ⌊(1/10 : ℚ)⌋ = 0 := by norm_num [Int.floor_eq_iff]
  rw [hq]
  simp only [rhe, hf]
  norm_num

theorem fixed1_neg_hundredth : fixed1 ((-1 : ℚ)/100) = "-0.0" := by
  simp only [fixed1, rhe_neg_hundredth, if_pos (show ((-1 : ℚ)/100) < 0 by norm_num)]
  decide

theorem fixed1_pos_hundredth : fixed1 ((1 : ℚ)/100) = "0.0" := by
  simp only [fixed1, rhe_pos_hundredth, if_neg (show ¬ ((1 : ℚ)/100) < 0 by norm_num)]
  decide

theorem fixed1_congr {q q' : ℚ} (h : round1 q = round1 q') (hs : q < 0 ↔ q' < 0) :
    fixed1 q = fixed1 q' := by
  have hr : rhe (10 * q) = rhe (10 * q') := by
    rw [round1, round1, div_eq_div_iff (by norm_num) (by norm_num)] at h
    exact_mod_cast mul_right_cancel₀ (by norm_num : (10 : ℚ) ≠ 0) h
  have hi : (if q < 0 then "-" else "") = (if q' < 0 then "-" else "") :=
    if_congr hs rfl rfl
  simp only [fixed1, hr, hi]

/-! ### Helper lemmas about `fetch_terrain` and the two `main`s -/

theorem fetch_terrain_fail (env : DownloadEnv) (name : String)
    (hgrd : env.grdOk = false) (h : env.ncOk = false ∨ env.convertOk = false) :
    (fetch_terrain env [] name).ok = false := by
  rcases env with ⟨g, nc, cv⟩
  simp only at hgrd
  subst hgrd
  cases nc <;> cases cv <;> simp_all [fetch_terrain]

theorem stn_main_parse_fail (parse : List Char → Option ℚ) (e : StnEnv)
    (h : e.parseOk = false) : stn_main parse e = 1 := by
  simp [stn_main, h]

theorem stn_main_region_fail (parse : List Char → Option ℚ) (e : StnEnv)
    (s : List Char) (hs : e.regionArg = some s)
    (h : set_manual_region parse s = none) : stn_main parse e = 1 := by
  simp only [stn_main]
  cases hb : e.parseOk
  · simp [hb]
  · simp [hb, hs, h]

theorem stn_main_terrain_fail (parse : List Char → Option ℚ) (e : StnEnv)
    (h : ∀ name, (fetch_terrain e.download e.cache name).ok = false) :
    stn_main parse e = 1 := by
  simp only [stn_main]
  cases hb : e.parseOk
  · simp [hb]
  · simp only [hb, Bool.true_eq_false, if_false]
    generalize (match e.regionArg with
      | some s => set_manual_region parse s
      | none => calculate_region e.stations e.paddingArg e.minRange) = ro
    cases ro with
    | none => rfl
    | some reg => simp [h]

theorem stn_main_render_fail (parse : List Char → Option ℚ) (e : StnEnv)
    (h : e.renderOk = false) : stn_main parse e = 1 := by
  simp only [stn_main]
  cases hb : e.parseOk
  · simp [hb]
  · simp only [hb, Bool.true_eq_false, if_false]
    generalize (match e.regionArg with
      | some s => set_manual_region parse s
      | none => calculate_region e.stations e.paddingArg e.minRange) = ro
    cases ro with
    | none => rfl
    | some reg =>
      by_cases hf : (fetch_terrain e.download e.cache
          (match reg with
            | [a, b, c, d] => cache_name (gmt_res e.resolution) a b c d
            | _ => "")).ok = false
      · simp [hf]
      · simp [hf, h]

theorem station_record_spec_witness :
    station_info "BJ" ⟨"AAA", 40, 116, some 100⟩ ∈
      parse_dataless_stations [⟨"BJ", [⟨"AAA", 40, 116, some 100⟩]⟩] ∧
    (station_info "BJ" ⟨"AAA", 40, 116, some 100⟩).elevation = 100 := by
  have h := station_record_spec
    [⟨"BJ", [⟨"AAA", 40, 116, some 100⟩]⟩] ⟨"BJ", [⟨"AAA", 40, 116, some 100⟩]⟩
    (by simp) ⟨"AAA", 40, 116, some 100⟩ (by simp)
  exact ⟨h.1, h.2.2.2.2.2.1 100 rfl (by norm_num)⟩

/-! ### C6 -/

/-- C6 counterexample: the cache filename is not a function of only the
resolution and the coordinates rounded to one decimal place: the
longitudes `-1/100` and `1/100` both round to `0.0`, yet Python's `:.1f`
formatting keeps the sign of the input value, so the two filenames differ
(`relief_03s_-0.0_...` versus `relief_03s_0.0_...`). -/
theorem cache_name_rounding_cex :
    round1 ((-1 : ℚ)/100) = round1 ((1 : ℚ)/100) ∧
    cache_name "03s" ((-1 : ℚ)/100) 116.8 39.5 40.7 ≠
      cache_name "03s" ((1 : ℚ)/100) 116.8 39.5 40.7 := by
  constructor
  · rw [round1, round1, rhe_neg_hundredth, rhe_pos_hundredth]
  · have h1 : cache_name "03s" ((-1 : ℚ)/100) 116.8 39.5 40.7 =
        "relief_03s_-0.0_116.8_39.5_40.7.grd" := by
      simp only [cache_name, fixed1_neg_hundredth, fixed1_116_8, fixed1_39_5,
        fixed1_40_7]
      decide
    have h2 : cache_name "03s" ((1 : ℚ)/100) 116.8 39.5 40.7 =
        "relief_03s_0.0_116.8_39.5_40.7.grd" := by
      simp only [cache_name, fixed1_pos_hundredth, fixed1_116_8, fixed1_39_5,
        fixed1_40_7]
      decide
    rw [h1, h2]
    decide

/-- C6 amended: the cache filename is a deterministic function of the
resolution string together with each coordinate's one-decimal rounding and
its sign; for resolution "03s" and region [115.5, 116.8, 39.5, 40.7] the
key is `relief_03s_115.5_116.8_39.5_40.7.grd`, on a first invocation whose
grd download succeeds the file is persisted into the cache, and a second
identical invocation reuses the cached file and launches no download
subprocess. -/
theorem cache_name_spec :
    (∀ (res : String) (a a' b b' c c' d d' : ℚ),
      round1 a = round1 a' → (a < 0 ↔ a' < 0) →
      round1 b = round1 b' → (b < 0 ↔ b' < 0) →
      round1 c = round1 c' → (c < 0 ↔ c' < 0) →
      round1 d = round1 d' → (d < 0 ↔ d' < 0) →
      cache_name res a b c d = cache_name res a' b' c' d') ∧
    cache_name (gmt_res "03s") 115.5 116.8 39.5 40.7 =
      "relief_03s_115.5_116.8_39.5_40.7.grd" ∧
    (∀ env : DownloadEnv, env.grdOk = true →
      fetch_terrain env [] (cache_name (gmt_res "03s") 115.5 116.8 39.5 40.7) =
        ⟨[.grdcutGrd], true,
          [cache_name (gmt_res "03s") 115.5 116.8 39.5 40.7], false⟩ ∧
      ∀ env' : DownloadEnv,
        fetch_terrain env' [cache_name (gmt_res "03s") 115.5 116.8 39.5 40.7]
            (cache_name (gmt_res "03s") 115.5 116.8 39.5 40.7) =
          ⟨[], true, [cache_name (gmt_res "03s") 115.5 116.8 39.5 40.7], false⟩) := by
  refine ⟨?_, ?_, ?_⟩
  · intro res a a' b b' c c' d d' ha has hb hbs hc hcs hd hds
    simp only [cache_name, fixed1_congr ha has, fixed1_congr hb hbs,
      fixed1_congr hc hcs, fixed1_congr hd hds]
  · have hres : gmt_res "03s" = "03s" := by decide
    rw [hres]
    simp only [cache_name, fixed1_115_5, fixed1_116_8, fixed1_39_5, fixed1_40_7]
    decide
  · intro env henv
    constructor
    · simp [fetch_terrain, henv]
    · intro env'
      simp [fetch_terrain]

theorem cache_name_spec_witness :
    fetch_terrain ⟨true, true, true⟩ []
        (cache_name (gmt_res "03s") 115.5 116.8 39.5 40.7) =
      ⟨[.grdcutGrd], true,
        [cache_name (gmt_res "03s") 115.5 116.8 39.5 40.7], false⟩ :=
  (cache_name_spec.2.2 ⟨true, true, true⟩ rfl).1

/-! ### C8 -/

/-- C8: when the cache misses and the primary grd download fails, exactly
one grd attempt and exactly one nc fallback attempt are made and at most
one conversion (no further retry); if both fallback steps succeed the
terrain is obtained and the intermediate nc file is removed, and if the
fallback download or the conversion fails no terrain is obtained and the
process exits with status 1. -/
theorem terrain_fallback_spec (env : DownloadEnv) (cache : List String)
    (name : String) (hnc : name ∉ cache) (hgrd : env.grdOk = false) :
    ((fetch_terrain env cache name).cmds.count .grdcutNc = 1 ∧
     (fetch_terrain env cache name).cmds.count .grdcutGrd = 1 ∧
     (fetch_terrain env cache name).cmds.count .grdconvert ≤ 1) ∧
    (env.ncOk = true → env.convertOk = true →
      (fetch_terrain env cache name).ok = true ∧
      (fetch_terrain env cache name).ncRemoved = true) ∧
    ((env.ncOk = false ∨ env.convertOk = false) →
      (fetch_terrain env cache name).ok = false ∧
      ∀ (parse : List Char → Option ℚ) (e : StnEnv),
        e.download = env → e.cache = [] → stn_main parse e = 1) := by
  rcases env with ⟨g, nc, cv⟩
  simp only at hgrd
  subst hgrd
  refine ⟨?_, ?_, ?_⟩
  · cases nc <;> cases cv <;> simp [fetch_terrain, hnc]
  · intro h1 h2
    simp only at h1 h2
    subst h1; subst h2
    simp [fetch_terrain, hnc]
  · intro hor
    constructor
    · cases nc <;> cases cv <;> simp_all [fetch_terrain, hnc]
    · intro parse e hd hcache
      refine stn_main_terrain_fail parse e ?_
      intro nm
      rw [hd, hcache]
      exact fetch_terrain_fail _ nm rfl (by simpa using hor)

theorem terrain_fallback_spec_witness :
    (fetch_terrain ⟨false, false, false⟩ [] "relief.grd").cmds.count .grdcutNc = 1 ∧
    (fetch_terrain ⟨false, false, false⟩ [] "relief.grd").cmds.count .grdcutGrd = 1 ∧
    (fetch_terrain ⟨false, false, false⟩ [] "relief.grd").cmds.count .grdconvert ≤ 1 :=
  (terrain_fallback_spec ⟨false, false, false⟩ [] "relief.grd" (by simp) rfl).1

/-! ### C7 -/

/-- C7 counterexample: in `generate_cpt_previews.py`, an invocation whose
setup succeeds (cpt directory and dataless file present, one cpt file
found) but whose single preview generation fails still exits with code 0:
the summary loop only prints the failure count. -/
theorem gcp_preview_failure_cex :
    gcp_main ⟨true, true, [false]⟩ = 0 := rfl

/-- C7 amended: `stn_plot.py` exits non-zero on every unrecoverable
failure (metadata parse failure covering a missing input file or an empty
station list, an invalid region string, terrain retrieval failure, a
rendering exception), and `generate_cpt_previews.py` exits non-zero when
its cpt directory, dataless file, or cpt file list is missing — but exits
0 after its generation loop regardless of how many preview generations
failed. -/
theorem exit_code_spec :
    (∀ (parse : List Char → Option ℚ) (e : StnEnv), e.parseOk = false →
      stn_main parse e = 1) ∧
    (∀ (parse : List Char → Option ℚ) (e : StnEnv) (s : List Char),
      e.regionArg = some s → set_manual_region parse s = none →
      stn_main parse e = 1) ∧
    (∀ (parse : List Char → Option ℚ) (e : StnEnv), e.cache = [] →
      e.download.grdOk = false → e.download.ncOk = false →
      stn_main parse e = 1) ∧
    (∀ (parse : List Char → Option ℚ) (e : StnEnv), e.renderOk = false →
      stn_main parse e = 1) ∧
    (∀ g : GcpEnv, g.cptDirExists = false ∨ g.datalessExists = false ∨
      g.previews = [] → gcp_main g = 1) ∧
    (∀ g : GcpEnv, g.cptDirExists = true → g.datalessExists = true →
      g.previews ≠ [] → gcp_main g = 0) := by
  refine ⟨stn_main_parse_fail, stn_main_region_fail, ?_, stn_main_render_fail, ?_, ?_⟩
  · intro parse e hcache hgrd hnc
    refine stn_main_terrain_fail parse e ?_
    intro nm
    rw [hcache]
    exact fetch_terrain_fail _ nm hgrd (Or.inl hnc)
  · intro g hg
    rcases g with ⟨cd, dl, pv⟩
    rcases hg with h | h | h <;> simp_all [gcp_main]
  · intro g hcd hdl hpv
    rcases g with ⟨cd, dl, pv⟩
    simp only at hcd hdl
    subst hcd; subst hdl
    simp [gcp_main, List.isEmpty_iff, hpv]

theorem exit_code_spec_witness :
    stn_main (fun _ => none)
      ⟨false, [], none, none, 2, "03s", ⟨true, true, true⟩, [], true⟩ = 1 :=
  exit_code_spec.1 (fun _ => none) _ rfl
